import Mathlib

/-!
Verification of the swing-trading scoring engine of `ScreenerTab.tsx`.

The only decision logic in the repository is `getSwingTradingScore`
(src/src/components/ScreenerTab.tsx, lines 53-92) and its batch
application over the screener results (`results.map`, lines 235-236).
We embed the snapshot record with rational fields (JavaScript numbers
over the real domain the spec describes), the score as an integer, and
translate the function statement by statement.
-/

/-- A per-symbol market snapshot, mirroring the fields of `ScreenerResult`
read by the component. -/
structure ScreenerResult where
  symbol : String
  price : ℚ
  change : ℚ
  changePercent : ℚ
  volume : ℚ
  marketCap : ℚ
  pe : ℚ
  rsi : ℚ
  sma20 : ℚ
  sma50 : ℚ
deriving Repr, DecidableEq

/-- The discrete trading signal strings produced by the score chain. -/
inductive Signal where
  | strongBuy
  | buy
  | hold
  | weak
  | sell
deriving Repr, DecidableEq

/-- Output of the scoring function: clamped score, signal, display color. -/
structure ScoreResult where
  score : Int
  signal : Signal
  color : String
deriving Repr, DecidableEq

/-- The accumulated point total of `getSwingTradingScore` before clamping:
base 50, then the sequential adjustments of lines 54-71. -/
def rawSwingScore (result : ScreenerResult) : Int :=
  let score : Int := 50
  let score := if result.rsi ≥ 30 ∧ result.rsi ≤ 70 then score + 20
    else if result.rsi < 30 then score + 30
    else score - 20
  let score := if result.price > result.sma20 then score + 15 else score
  let score := if result.price > result.sma50 then score + 10 else score
  let score := if result.sma20 > result.sma50 then score + 15 else score
  let score := if result.volume > 1000000 then score + 10
    else if result.volume > 500000 then score + 5
    else score
  let score := if |result.changePercent| > 2 then score + 10 else score
  score

/-- The signal chain of lines 74-89, an ordered if/else-if chain with
default `HOLD`. -/
def signalOfScore (score : Int) : Signal :=
  if score ≥ 80 then Signal.strongBuy
  else if score ≥ 65 then Signal.buy
  else if score ≤ 35 then Signal.sell
  else if score ≤ 50 then Signal.weak
  else Signal.hold

/-- The color assigned alongside the signal in the same chain. -/
def colorOfScore (score : Int) : String :=
  if score ≥ 80 then "text-success-400"
  else if score ≥ 65 then "text-success-300"
  else if score ≤ 35 then "text-danger-400"
  else if score ≤ 50 then "text-warning-400"
  else "text-neutral-400"

/-- `getSwingTradingScore` of lines 53-92: the signal and color are chosen
from the accumulated (pre-clamp) score; the returned score is
`Math.max(0, Math.min(100, score))`. -/
def getSwingTradingScore (result : ScreenerResult) : ScoreResult :=
  let score := rawSwingScore result
  { score := max 0 (min 100 score)
    signal := signalOfScore score
    color := colorOfScore score }

/-- The batch application of the scoring function over the results list
(lines 235-236): each row is rendered from its snapshot together with
`getSwingTradingScore` of that snapshot, in input order. -/
def rank (xs : List ScreenerResult) : List (ScreenerResult × ScoreResult) :=
  xs.map (fun r => (r, getSwingTradingScore r))

/-- The accumulated score, rewritten as the additive sum of independent
bracket contributions. -/
lemma rawSwingScore_eq_sum (s : ScreenerResult) :
    rawSwingScore s =
      50 + (if s.rsi ≥ 30 ∧ s.rsi ≤ 70 then 20 else if s.rsi < 30 then 30 else -20)
        + (if s.price > s.sma20 then 15 else 0)
        + (if s.price > s.sma50 then 10 else 0)
        + (if s.sma20 > s.sma50 then 15 else 0)
        + (if s.volume > 1000000 then 10 else if s.volume > 500000 then 5 else 0)
        + (if |s.changePercent| > 2 then 10 else 0) := by
  unfold rawSwingScore
  split_ifs <;> ring

/-- The accumulated score never drops below 30: each bracket contributes
at least its minimum. -/
lemma rawSwingScore_ge (s : ScreenerResult) : 30 ≤ rawSwingScore s := by
  rw [rawSwingScore_eq_sum]
  split_ifs <;> omega

/-- The accumulated score never exceeds 140. -/
lemma rawSwingScore_le (s : ScreenerResult) : rawSwingScore s ≤ 140 := by
  rw [rawSwingScore_eq_sum]
  split_ifs <;> omega

/-- The accumulated score is always a multiple of five: every bracket
contributes a multiple of five. -/
lemma rawSwingScore_dvd (s : ScreenerResult) : (5 : Int) ∣ rawSwingScore s := by
  rw [rawSwingScore_eq_sum]
  split_ifs <;> omega

/-- Clamping to [0, 100] does not change the classification of an
accumulated score that is at least 30: below 100 the clamp is the
identity, above 100 both the raw and the clamped score classify as
`STRONG_BUY`. -/
lemma signalOfScore_clamp (r : Int) (h : 30 ≤ r) :
    signalOfScore (max 0 (min 100 r)) = signalOfScore r := by
  rcases le_or_lt r 100 with h1 | h1
  · have hc : max 0 (min 100 r) = r := by omega
    rw [hc]
  · have hc : max 0 (min 100 r) = 100 := by omega
    have h80 : (80 : Int) ≤ r := by omega
    rw [hc]
    unfold signalOfScore
    rw [if_pos (by omega : (100 : Int) ≥ 80), if_pos (by omega : r ≥ 80)]

/-- C1: the score returned by the engine is the clamp to [0, 100] of
base 50 plus the rsi adjustment (+20 for 30 ≤ rsi ≤ 70 inclusive, else
+30 for rsi < 30, else −20), plus 15 when price > sma20, plus 10 when
price > sma50, plus 15 when sma20 > sma50, plus the volume bracket
(+10 over 1,000,000 else +5 over 500,000 else 0), plus 10 when
`|changePercent|` exceeds 2. -/
theorem score_formula (s : ScreenerResult) :
    (getSwingTradingScore s).score =
      max 0 (min 100
        (50 + (if s.rsi ≥ 30 ∧ s.rsi ≤ 70 then 20 else if s.rsi < 30 then 30 else -20)
          + (if s.price > s.sma20 then 15 else 0)
          + (if s.price > s.sma50 then 10 else 0)
          + (if s.sma20 > s.sma50 then 15 else 0)
          + (if s.volume > 1000000 then 10 else if s.volume > 500000 then 5 else 0)
          + (if |s.changePercent| > 2 then 10 else 0))) := by
  simp only [getSwingTradingScore]
  rw [rawSwingScore_eq_sum]

/-- C2: the returned signal is one of the five enumerated values, and
re-applying the ordered threshold chain to the returned clamped score
reproduces the returned signal. -/
theorem signal_consistency (s : ScreenerResult) :
    ((getSwingTradingScore s).signal = Signal.strongBuy ∨
      (getSwingTradingScore s).signal = Signal.buy ∨
      (getSwingTradingScore s).signal = Signal.hold ∨
      (getSwingTradingScore s).signal = Signal.weak ∨
      (getSwingTradingScore s).signal = Signal.sell) ∧
    (getSwingTradingScore s).signal = signalOfScore ((getSwingTradingScore s).score) := by
  constructor
  · cases h : (getSwingTradingScore s).signal <;> simp
  · simp only [getSwingTradingScore]
    rw [signalOfScore_clamp _ (rawSwingScore_ge s)]

/-- C3: the returned score always lies in the closed interval [0, 100]. -/
theorem score_bounded (s : ScreenerResult) :
    0 ≤ (getSwingTradingScore s).score ∧ (getSwingTradingScore s).score ≤ 100 := by
  simp only [getSwingTradingScore]
  omega

/-- C4: when the accumulated additive score lies strictly between 50 and
65, none of the four threshold branches fires and the engine returns the
default signal `HOLD`. -/
theorem gap_defaults_to_hold (s : ScreenerResult)
    (h1 : 50 < rawSwingScore s) (h2 : rawSwingScore s < 65) :
    (getSwingTradingScore s).signal = Signal.hold := by
  simp only [getSwingTradingScore, signalOfScore]
  split_ifs <;> first | rfl | omega

/-- A snapshot whose accumulated score is exactly 60: rsi 80 gives −20,
price 100 beats sma20 90 (+15) and sma50 95 (+10), sma20 below sma50,
volume 600,000 (+5), changePercent 1 adds nothing. -/
def gapSnapshot : ScreenerResult :=
  { symbol := "GAP", price := 100, change := 1, changePercent := 1,
    volume := 600000, marketCap := 1000000, pe := 15, rsi := 80,
    sma20 := 90, sma50 := 95 }

/-- C4 witness: the gap snapshot scores 60 and is classified `HOLD`. -/
theorem gap_defaults_to_hold_witness :
    50 < rawSwingScore gapSnapshot ∧ rawSwingScore gapSnapshot < 65 ∧
    (getSwingTradingScore gapSnapshot).signal = Signal.hold := by
  have h1 : 50 < rawSwingScore gapSnapshot := by
    rw [rawSwingScore_eq_sum]; norm_num [gapSnapshot]
  have h2 : rawSwingScore gapSnapshot < 65 := by
    rw [rawSwingScore_eq_sum]; norm_num [gapSnapshot]
  exact ⟨h1, h2, gap_defaults_to_hold gapSnapshot h1 h2⟩

/-- C5: raising the price from at most sma20 to above sma20, all other
fields fixed, never decreases the returned score: the sma20 bonus turns
on, the sma50 bonus can only turn on, nothing else depends on price, and
the clamp is monotone. -/
theorem trend_bonus_monotone (s : ScreenerResult) (p1 p2 : ℚ)
    (h1 : p1 ≤ s.sma20) (h2 : s.sma20 < p2) :
    (getSwingTradingScore { s with price := p1 }).score ≤
      (getSwingTradingScore { s with price := p2 }).score := by
  have hp : p1 < p2 := lt_of_le_of_lt h1 h2
  have hraw : rawSwingScore { s with price := p1 } ≤
      rawSwingScore { s with price := p2 } := by
    rw [rawSwingScore_eq_sum, rawSwingScore_eq_sum]
    dsimp only
    rw [if_neg (not_lt.mpr h1), if_pos h2]
    by_cases h50 : p1 > s.sma50
    · rw [if_pos h50, if_pos (lt_trans h50 hp)]
      split_ifs <;> omega
    · rw [if_neg h50]
      split_ifs <;> omega
  simp only [getSwingTradingScore]
  omega

/-- A fixed snapshot used to exercise the price monotonicity bound. -/
def trendSnapshot : ScreenerResult :=
  { symbol := "TRD", price := 0, change := 0, changePercent := 0,
    volume := 0, marketCap := 0, pe := 0, rsi := 50,
    sma20 := 100, sma50 := 98 }

/-- C5 witness: moving the price from 95 (below sma20 = 100) to 105
(above it) does not decrease the score. -/
theorem trend_bonus_monotone_witness :
    (95 : ℚ) ≤ trendSnapshot.sma20 ∧ trendSnapshot.sma20 < 105 ∧
    (getSwingTradingScore { trendSnapshot with price := 95 }).score ≤
      (getSwingTradingScore { trendSnapshot with price := 105 }).score := by
  refine ⟨by norm_num [trendSnapshot], by norm_num [trendSnapshot],
    trend_bonus_monotone trendSnapshot 95 105 (by norm_num [trendSnapshot])
      (by norm_num [trendSnapshot])⟩

/-- C6: the batch application returns one pair per input snapshot, the
first components are the inputs themselves in order, hence the symbol
order of the input is preserved; no reordering by score happens. -/
theorem rank_preserves_order (xs : List ScreenerResult) :
    (rank xs).length = xs.length ∧
    (rank xs).map Prod.fst = xs ∧
    (rank xs).map (fun p => p.1.symbol) = xs.map ScreenerResult.symbol := by
  refine ⟨?_, ?_, ?_⟩ <;> simp [rank, List.map_map, Function.comp_def]

/-- C7: the result depends only on the fields of the single snapshot the
function reads (price, changePercent, volume, rsi, sma20, sma50): two
snapshots agreeing on them get identical score, signal and color, with
no hidden state, history or randomness. -/
theorem evaluate_deterministic (s1 s2 : ScreenerResult)
    (hp : s1.price = s2.price) (hcp : s1.changePercent = s2.changePercent)
    (hv : s1.volume = s2.volume) (hr : s1.rsi = s2.rsi)
    (h20 : s1.sma20 = s2.sma20) (h50 : s1.sma50 = s2.sma50) :
    getSwingTradingScore s1 = getSwingTradingScore s2 := by
  simp only [getSwingTradingScore, rawSwingScore, hp, hcp, hv, hr, h20, h50]

/-- First of two snapshots agreeing on every field the engine reads. -/
def detSnapshotA : ScreenerResult :=
  { symbol := "DTA", price := 55, change := 2, changePercent := 3,
    volume := 1200000, marketCap := 5000000, pe := 12, rsi := 40,
    sma20 := 50, sma50 := 45 }

/-- Second snapshot: same engine-relevant fields, different symbol,
change, marketCap and pe. -/
def detSnapshotB : ScreenerResult :=
  { symbol := "DTB", price := 55, change := -2, changePercent := 3,
    volume := 1200000, marketCap := 9000000, pe := 33, rsi := 40,
    sma20 := 50, sma50 := 45 }

/-- C7 witness: the two snapshots get identical results. -/
theorem evaluate_deterministic_witness :
    detSnapshotA.price = detSnapshotB.price ∧
    detSnapshotA.changePercent = detSnapshotB.changePercent ∧
    detSnapshotA.volume = detSnapshotB.volume ∧
    detSnapshotA.rsi = detSnapshotB.rsi ∧
    detSnapshotA.sma20 = detSnapshotB.sma20 ∧
    detSnapshotA.sma50 = detSnapshotB.sma50 ∧
    getSwingTradingScore detSnapshotA = getSwingTradingScore detSnapshotB :=
  ⟨rfl, rfl, rfl, rfl, rfl, rfl,
    evaluate_deterministic detSnapshotA detSnapshotB rfl rfl rfl rfl rfl rfl⟩

/-- C8: the empty snapshot sequence is a valid input and yields the empty
sequence of pairs. -/
theorem rank_empty : rank ([] : List ScreenerResult) = [] := rfl

/-- C9: the accumulated sum always lies in [30, 140], so the lower clamp
to 0 never fires and the returned score equals `min 100` of the sum; the
returned score is a multiple of 5 in [30, 100]. -/
theorem score_granularity (s : ScreenerResult) :
    30 ≤ rawSwingScore s ∧ rawSwingScore s ≤ 140 ∧
    (getSwingTradingScore s).score = min 100 (rawSwingScore s) ∧
    (5 : Int) ∣ (getSwingTradingScore s).score ∧
    30 ≤ (getSwingTradingScore s).score ∧ (getSwingTradingScore s).score ≤ 100 := by
  have hge := rawSwingScore_ge s
  have hle := rawSwingScore_le s
  have hd := rawSwingScore_dvd s
  simp only [getSwingTradingScore]
  omega

/-- When the rsi does not exceed 70, the rsi bracket contributes at
least 20 points. -/
lemma rsi_bracket_ge (r : ℚ) (h : r ≤ 70) :
    (20 : Int) ≤ if r ≥ 30 ∧ r ≤ 70 then 20 else if r < 30 then 30 else -20 := by
  split_ifs with h1 h2
  · omega
  · omega
  · exact absurd ⟨le_of_not_lt h2, h⟩ h1

/-- C10: with rsi ≤ 70 the accumulated score is at least 70, so the
SELL branch (score ≤ 35) is unreachable: SELL can only be returned when
rsi > 70. -/
theorem sell_requires_overbought (s : ScreenerResult) (h : s.rsi ≤ 70) :
    70 ≤ rawSwingScore s ∧ (getSwingTradingScore s).signal ≠ Signal.sell := by
  have hb := rsi_bracket_ge s.rsi h
  have h70 : 70 ≤ rawSwingScore s := by
    rw [rawSwingScore_eq_sum]
    set a := (if s.rsi ≥ 30 ∧ s.rsi ≤ 70 then (20 : Int)
      else if s.rsi < 30 then 30 else -20) with ha
    split_ifs <;> omega
  refine ⟨h70, ?_⟩
  simp only [getSwingTradingScore, signalOfScore]
  split_ifs <;> first | (exfalso; omega) | simp

/-- A snapshot with rsi in the healthy range and weak everything else. -/
def lowRsiSnapshot : ScreenerResult :=
  { symbol := "LOW", price := 10, change := 0, changePercent := 0,
    volume := 1000, marketCap := 0, pe := 5, rsi := 50,
    sma20 := 20, sma50 := 30 }

/-- C10 witness: at rsi 50 the accumulated score is at least 70 and the
signal is not SELL. -/
theorem sell_requires_overbought_witness :
    lowRsiSnapshot.rsi ≤ 70 ∧ 70 ≤ rawSwingScore lowRsiSnapshot ∧
    (getSwingTradingScore lowRsiSnapshot).signal ≠ Signal.sell := by
  have h : lowRsiSnapshot.rsi ≤ 70 := by norm_num [lowRsiSnapshot]
  exact ⟨h, (sell_requires_overbought lowRsiSnapshot h).1,
    (sell_requires_overbought lowRsiSnapshot h).2⟩
